import Mathlib

/-!
Shallow embedding of pygsheets/drive.py (DriveAPIWrapper) and proofs about it.

The module wraps the Google Drive v3 API: request execution with retry on
timeout, paginated listing of files and permissions, permission creation
and deletion with local validation, and export of spreadsheets and
worksheets to local files via chunked download.
-/

set_option autoImplicit false

namespace Drive

universe u

variable {α : Type u}

/-- Whether `pat` is a prefix of `cs`, on character lists. -/
def startsWith : List Char → List Char → Bool
  | _, [] => true
  | [], _ :: _ => false
  | c :: cs, p :: ps => c = p && startsWith cs ps

/-- Whether `pat` occurs as a contiguous run somewhere in `cs`. -/
def hasSubstrChars (pat : List Char) : List Char → Bool
  | [] => startsWith [] pat
  | c :: rest => startsWith (c :: rest) pat || hasSubstrChars pat rest

/-- Python substring test: `s.find(pat) != -1`, or `pat in s`. -/
def containsSubstr (s pat : String) : Bool :=
  hasSubstrChars pat.data s.data

/-- A Python exception as observed by this module: its `repr` text (used by
the timeout classification in `_execute_request`), its `str` text (used by
the owner-removal pattern match in `delete_permission`), and whether it is
an instance of `googleapiclient.errors.HttpError` (the only class caught by
`delete_permission`). -/
structure PyExc where
  reprStr : String
  strStr : String
  isHttpError : Bool
deriving DecidableEq, Repr

/-- Outcome of one call to `request.execute()`: a value or a raised exception. -/
inductive ExecResult (α : Type u) where
  | ok (v : α)
  | exc (e : PyExc)
deriving DecidableEq, Repr

/-- Outcome of `_execute_request`: a returned value (`none` models Python
falling off the end of the function and returning `None`), a re-raised
original exception, or the `RequestError` raised after exhausting retries. -/
inductive ExecOutcome (α : Type u) where
  | returned (v : Option α)
  | raised (e : PyExc)
  | requestError (msg : String)
deriving DecidableEq, Repr

/-- The body of `for i in range(n)` in `_execute_request`, instrumented with
the number of `request.execute()` calls performed. `rem` is the number of
loop iterations remaining (so `i + rem = n` at every call), `attempts`
counts executions so far. -/
def execLoop (request : Nat → ExecResult α) (n : Nat) :
    Nat → Nat → Nat → ExecOutcome α × Nat
  | _, 0, attempts => (.returned none, attempts)
  | i, rem + 1, attempts =>
    match request i with
    | .ok v => (.returned (some v), attempts + 1)
    | .exc e =>
      if containsSubstr e.reprStr "timed out" = false then
        (.raised e, attempts + 1)
      else if i = n - 1 then
        (.requestError ("Timeout : " ++ e.reprStr), attempts + 1)
      else
        execLoop request n (i + 1) rem (attempts + 1)

/-- Embedding of `DriveAPIWrapper._execute_request`. `retries` is `self.retries` (a Python
int, so possibly zero or negative: `range(retries)` is then empty and the
function returns `None`). `request i` is what the `i`-th call to
`request.execute()` does. Returns the outcome together with the number of
executions performed. -/
def execute_request (retries : Int) (request : Nat → ExecResult α) :
    ExecOutcome α × Nat :=
  execLoop request retries.toNat 0 retries.toNat 0

/-- One response of `service.files().list(...)`: the page of file metadata,
the optional `nextPageToken` key, and the optional `incompleteSearch` key
(`none` models the key being absent from the response dict). -/
structure ListResponse (α : Type u) where
  files : List α
  nextPageToken : Option String
  incompleteSearch : Option Bool
deriving DecidableEq, Repr

/-- Outcome of `DriveAPIWrapper.list`: the collected items together with the
number of requests issued and whether the incomplete-search warning was
emitted; or the `KeyError` raised when the warning line evaluates
`kwargs[\x27corpora\x27]` and the caller supplied no `corpora` argument; or a
stub shortfall (the provider sequence ran out while a token remained). -/
inductive ListOutcome (α : Type u) where
  | ok (items : List α) (requests : Nat) (warned : Bool)
  | keyError (key : String)
  | providerGap
deriving DecidableEq, Repr

/-- The `while \x27nextPageToken\x27 in response` loop of `DriveAPIWrapper.list`
(and of `list_permissions`): as long as the current response carries a
token, consume the next stubbed response, extending the accumulator with
its page. Returns the accumulated items, the final response and the total
number of requests issued, or `none` when the stub sequence is exhausted
while a token remains. -/
def listWhile (resp : ListResponse α) (rest : List (ListResponse α))
    (acc : List α) (requests : Nat) :
    Option (List α × ListResponse α × Nat) :=
  match resp.nextPageToken with
  | none => some (acc, resp, requests)
  | some _ =>
    match rest with
    | [] => none
    | r :: rs => listWhile r rs (acc ++ r.files) (requests + 1)

/-- Embedding of `DriveAPIWrapper.list`, run against a stubbed provider that answers the
`k`-th issued request with `responses[k]`. `corpora` is the value of the
`corpora` keyword argument if the caller supplied one. After the pagination
loop, if the final response has `incompleteSearch` set to true the code
logs a warning whose argument is `kwargs[\x27corpora\x27]`; evaluating that
argument raises `KeyError` when no `corpora` keyword was supplied. -/
def filesList (corpora : Option String) (responses : List (ListResponse α)) :
    ListOutcome α :=
  match responses with
  | [] => .providerGap
  | r :: rs =>
    match listWhile r rs r.files 1 with
    | none => .providerGap
    | some (items, last, requests) =>
      if last.incompleteSearch = some true then
        match corpora with
        | none => .keyError "corpora"
        | some _ => .ok items requests true
      else .ok items requests false

/-- One response of `service.permissions().list(...)`: the page of
permission resources and the optional `nextPageToken` key. -/
structure PermListResponse (α : Type u) where
  permissions : List α
  nextPageToken : Option String
deriving DecidableEq, Repr

/-- The `while` loop of `DriveAPIWrapper.list_permissions`, same shape as
the one in `list` but over the `permissions` field and with no
incomplete-search check. -/
def permsWhile (resp : PermListResponse α) (rest : List (PermListResponse α))
    (acc : List α) (requests : Nat) :
    Option (List α × Nat) :=
  match resp.nextPageToken with
  | none => some (acc, requests)
  | some _ =>
    match rest with
    | [] => none
    | r :: rs => permsWhile r rs (acc ++ r.permissions) (requests + 1)

/-- Embedding of `DriveAPIWrapper.list_permissions`, run against a stubbed provider that
answers the `k`-th issued request with `responses[k]`. Returns the
collected permissions and the number of requests issued, or `none` when
the stub sequence is exhausted while a token remains. -/
def list_permissions (responses : List (PermListResponse α)) :
    Option (List α × Nat) :=
  match responses with
  | [] => none
  | r :: rs => permsWhile r rs r.permissions 1

/-- Character class `[-a-zA-Z0-9.`...]` of the local part of
`_EMAIL_PATTERN`, namely dash, letters, digits, dot, backquote (code 96),
question mark, and the two brace characters (codes 123 and 125). -/
def isLocalChar (c : Char) : Bool :=
  c = Char.ofNat 45 || (97 ≤ c.toNat && c.toNat ≤ 122) ||
    (65 ≤ c.toNat && c.toNat ≤ 90) || (48 ≤ c.toNat && c.toNat ≤ 57) ||
    c = Char.ofNat 46 || c = Char.ofNat 96 || c = Char.ofNat 63 ||
    c = Char.ofNat 123 || c = Char.ofNat 125

/-- Character class `[-a-zA-Z0-9.]` of the domain part of `_EMAIL_PATTERN`. -/
def isDomainChar (c : Char) : Bool :=
  c = Char.ofNat 45 || (97 ≤ c.toNat && c.toNat ≤ 122) ||
    (65 ≤ c.toNat && c.toNat ≤ 90) || (48 ≤ c.toNat && c.toNat ≤ 57) ||
    c = Char.ofNat 46

/-- Regex word character class, the tail of `_EMAIL_PATTERN` after the
final literal dot. -/
def isWordChar (c : Char) : Bool :=
  (97 ≤ c.toNat && c.toNat ≤ 122) || (65 ≤ c.toNat && c.toNat ≤ 90) ||
    (48 ≤ c.toNat && c.toNat ≤ 57) || c = Char.ofNat 95

/-- Matching of the part of `_EMAIL_PATTERN` after the `@`: some nonempty
prefix of domain characters, then a literal dot followed by at least one
word character (everything after that word character is unconstrained,
since the rest of the pattern is an optional quote). `seen` records whether
at least one domain character has been consumed so far. -/
def emailTail (cs : List Char) (seen : Bool) : Bool :=
  match cs with
  | [] => false
  | c :: rest =>
    (seen && c = Char.ofNat 46 &&
      (match rest with
       | w :: _ => isWordChar w
       | [] => false))
    || (isDomainChar c && emailTail rest true)

/-- Matching of `_EMAIL_PATTERN` from the local part on: one or more local
characters, then `@`, then `emailTail`. The `@` is not a local character,
so the greedy `+` is deterministic here. `seen` records whether at least
one local character has been consumed. -/
def emailLocal (cs : List Char) (seen : Bool) : Bool :=
  match cs with
  | [] => false
  | c :: rest =>
    if c = Char.ofNat 64 then seen && emailTail rest false
    else if isLocalChar c then emailLocal rest true
    else false

/-- Truthiness of `_EMAIL_PATTERN.match(s)`: the anchored-at-start match of
the pattern optional-quote, local-part, `@`, domain-part, dot, word
characters, optional-quote. The match need not reach the end of the
string, and the trailing optional quote always matches, so only the prefix
through one word character after the last required dot is constrained. -/
def emailPatternMatch (s : String) : Bool :=
  match s.data with
  | [] => false
  | c :: rest =>
    if c = Char.ofNat 34 then emailLocal rest false
    else emailLocal (c :: rest) false

/-- The constant `PERMISSION_ROLES` from drive.py. -/
def PERMISSION_ROLES : List String :=
  ["organizer", "owner", "writer", "commenter", "reader"]

/-- The constant `PERMISSION_TYPES` from drive.py. -/
def PERMISSION_TYPES : List String :=
  ["user", "group", "domain", "anyone"]

/-- Python `repr` of a string for error messages: the string between two
apostrophe characters (code 39). -/
def pyQuote (s : String) : String :=
  String.singleton (Char.ofNat 39) ++ s ++ String.singleton (Char.ofNat 39)

/-- Python `str` of a list of strings, as interpolated into the
invalid-argument messages of `create_permission`. -/
def pyListStr (xs : List String) : String :=
  "[" ++ String.intercalate ", " (xs.map pyQuote) ++ "]"

/-- The keyword arguments of `create_permission` that the function itself
inspects or consumes. Other keyword arguments are forwarded verbatim and
play no role in the claims. `none` models an absent key. -/
structure PermKwargs where
  emailAddress : Option String := none
  domain : Option String := none
  allowFileDiscovery : Option Bool := none
  expirationTime : Option String := none
deriving DecidableEq, Repr

/-- The request body built by `create_permission`: the three fixed fields
plus the optional fields copied from the keyword arguments. `none` models
a key absent from the body dict. -/
structure PermissionBody where
  kind : String
  type : String
  role : String
  emailAddress : Option String := none
  domain : Option String := none
  allowFileDiscovery : Option Bool := none
  expirationTime : Option String := none
deriving DecidableEq, Repr

/-- Outcome of `create_permission`: either the remote create call is issued
with the built body, or an `InvalidArgumentValue` is raised before any
remote call. -/
inductive PermResult where
  | sent (body : PermissionBody)
  | invalidArgument (msg : String)
deriving DecidableEq, Repr

/-- Embedding of `DriveAPIWrapper.create_permission` up to the remote call: the
validation sequence (both-grantee check, role check, type check, email
format check) and the construction of the request body. The remote
execution itself is represented by `.sent body`. -/
def create_permission (role type : String) (kwargs : PermKwargs) : PermResult :=
  if kwargs.emailAddress.isSome && kwargs.domain.isSome then
    .invalidArgument
      "A permission can only use emailAddress or domain. Do not specify both."
  else if ¬ PERMISSION_ROLES.contains role then
    .invalidArgument
      ("A permission role can only be one of " ++ pyListStr PERMISSION_ROLES ++ ".")
  else if ¬ PERMISSION_TYPES.contains type then
    .invalidArgument
      ("A permission role can only be one of " ++ pyListStr PERMISSION_TYPES ++ ".")
  else
    let base : PermissionBody :=
      { kind := "drive#permission", type := type, role := role }
    match kwargs.emailAddress with
    | some em =>
      if emailPatternMatch em then
        .sent { base with
                emailAddress := some em,
                allowFileDiscovery := kwargs.allowFileDiscovery,
                expirationTime := kwargs.expirationTime }
      else
        .invalidArgument
          ("The provided e-mail address doesn\x27t have a valid format: " ++ em ++ ".")
    | none =>
      match kwargs.domain with
      | some d =>
        .sent { base with
                domain := some d,
                allowFileDiscovery := kwargs.allowFileDiscovery,
                expirationTime := kwargs.expirationTime }
      | none =>
        .sent { base with
                allowFileDiscovery := kwargs.allowFileDiscovery,
                expirationTime := kwargs.expirationTime }

/-- Outcome of `DriveAPIWrapper.delete_permission`: success, the
distinguished `CannotRemoveOwnerError`, a propagated original exception, or
a propagated `RequestError` coming out of `_execute_request`. -/
inductive DeleteOutcome where
  | ok
  | cannotRemoveOwner
  | raised (e : PyExc)
  | requestError (msg : String)
deriving DecidableEq, Repr

/-- The literal text of the owner-removal pattern; `re.search` with this
pattern (whose only escape is a literal dot) is a substring test. -/
def ownerPatternText : String :=
  "The owner of a file cannot be removed."

/-- Embedding of `DriveAPIWrapper.delete_permission`: run the delete request through
`_execute_request`; `except HttpError` catches exactly the re-raised
original exceptions that are HttpError instances, translating those whose
`str` text matches the owner-removal pattern into `CannotRemoveOwnerError`
and re-raising the rest; everything else (including the `RequestError`
raised after exhausted timeout retries) propagates unchanged. -/
def delete_permission (retries : Int) (request : Nat → ExecResult Unit) :
    DeleteOutcome :=
  match (execute_request retries request).1 with
  | .returned _ => .ok
  | .raised e =>
    if e.isHttpError then
      if containsSubstr e.strStr ownerPatternText then .cannotRemoveOwner
      else .raised e
    else .raised e
  | .requestError m => .requestError m

/-- Modelled from the spec: the export format pairs (a MIME type and a file
extension joined by a colon) of the `ExportType` enum, which lives in
pygsheets.custom_types outside the provided sources. Only CSV and TSV are
distinguished by `export`; PDF stands for the remaining formats. -/
inductive ExportType where
  | csv
  | tsv
  | pdf
deriving DecidableEq, Repr, BEq

/-- Modelled from the spec: the `value` string of each `ExportType` member,
a MIME type and a file extension separated by a colon. -/
def ExportType.value : ExportType → String
  | .csv => "text/csv:.csv"
  | .tsv => "text/tab-separated-values:.tsv"
  | .pdf => "application/pdf:.pdf"

/-- Python `str.split(sep)` for a one-character separator, on character
lists. -/
def splitOnChar (sep : Char) : List Char → List (List Char)
  | [] => [[]]
  | c :: rest =>
    match splitOnChar sep rest with
    | [] => if c = sep then [[], []] else [[c]]
    | g :: gs => if c = sep then [] :: g :: gs else (c :: g) :: gs

/-- The MIME-type half of `file_format.value.split(\x27:\x27)` in `export`. -/
def mimeOf (fmt : ExportType) : String :=
  String.mk (((splitOnChar (Char.ofNat 58) fmt.value.data).get? 0).getD [])

/-- The file-extension half of `file_format.value.split(\x27:\x27)` in
`export`. -/
def extOf (fmt : ExportType) : String :=
  String.mk (((splitOnChar (Char.ofNat 58) fmt.value.data).get? 1).getD [])

/-- A worksheet as `export` sees it: `str(sheet.id)`, the mutable position
`sheet.index`, and `sheet.spreadsheet.id`. -/
structure Worksheet where
  id : String
  index : Nat
  spreadsheetId : String
deriving DecidableEq, Repr

/-- A spreadsheet as `export` sees it: `str(sheet.id)` and its worksheets
in order. -/
structure Spreadsheet where
  id : String
  worksheets : List Worksheet
deriving DecidableEq, Repr

/-- Behaviour of the chunked `MediaIoBaseDownload` loop for one file: the
download either reports completion after some number of successful
`next_chunk` calls, or `next_chunk` raises partway through. -/
inductive DownloadRun where
  | completes (chunks : Nat)
  | failsPartway (chunks : Nat)
deriving DecidableEq, Repr

/-- Observable effects of one `export` call: the local file paths opened
via `io.FileIO`, the close events performed on them (the source performs
none), the number of export requests built, whether the
`filename + str(worksheet.index)` expression raised `TypeError` (filename
is `None` on the multi-worksheet CSV/TSV path), whether a download raised,
and the final `index` of the worksheet for a worksheet-target call. -/
structure ExportOut where
  opens : List String
  closes : List String
  exportCalls : Nat
  typeError : Bool
  raisedDl : Bool
  finalIndex : Nat
deriving DecidableEq, Repr

/-- The `isinstance(sheet, Worksheet)` branch of `DriveAPIWrapper.export`
together with the shared download tail: save `tmp = sheet.index`, set
`sheet.index = 0`, build the export request, open
`path + file_name` where `file_name` is `str(sheet.id) + file_extension`
when no filename is given and `filename + file_extension` otherwise, run
the chunked download, and restore `sheet.index = tmp` only when the
download loop finished. The handle opened by `io.FileIO` is never closed
on any path. -/
def exportWorksheet (w : Worksheet) (fmt : ExportType) (path : String)
    (filename : Option String) (dl : DownloadRun) : ExportOut :=
  let tmp := w.index
  let file_name :=
    (match filename with
     | none => w.id
     | some f => f) ++ extOf fmt
  match dl with
  | .completes _ =>
    { opens := [path ++ file_name], closes := [], exportCalls := 1,
      typeError := false, raisedDl := false, finalIndex := tmp }
  | .failsPartway _ =>
    { opens := [path ++ file_name], closes := [], exportCalls := 1,
      typeError := false, raisedDl := true, finalIndex := 0 }

/-- The `for worksheet in sheet` loop of the multi-worksheet CSV/TSV branch
of `export`, once a (non-None) base filename is in hand: each worksheet is
exported through the worksheet branch with `filename + str(worksheet.index)`
as its filename; a download failure propagates and stops the loop. `k`
numbers the downloads so each recursive call gets its own behaviour. -/
def exportSheetsLoop (fmt : ExportType) (path f : String)
    (dls : Nat → DownloadRun) (k : Nat) :
    List Worksheet → ExportOut
  | [] =>
    { opens := [], closes := [], exportCalls := 0,
      typeError := false, raisedDl := false, finalIndex := 0 }
  | w :: rest =>
    let out := exportWorksheet w fmt path (some (f ++ toString w.index)) (dls k)
    if out.raisedDl then out
    else
      let restOut := exportSheetsLoop fmt path f dls (k + 1) rest
      { opens := out.opens ++ restOut.opens,
        closes := out.closes ++ restOut.closes,
        exportCalls := out.exportCalls + restOut.exportCalls,
        typeError := restOut.typeError,
        raisedDl := restOut.raisedDl,
        finalIndex := restOut.finalIndex }

/-- The `isinstance(sheet, Spreadsheet)` branch of `DriveAPIWrapper.export`.
For CSV or TSV with more than one worksheet the code evaluates
`filename + str(worksheet.index)` for the first worksheet: when the caller
left `filename` at its default `None` this is `None + str`, a `TypeError`
raised before any export request is built or any file opened; with a
string filename each worksheet is exported separately. Otherwise a single
whole-document export runs with the shared download tail. -/
def exportSpreadsheet (s : Spreadsheet) (fmt : ExportType) (path : String)
    (filename : Option String) (dls : Nat → DownloadRun) : ExportOut :=
  if (fmt == ExportType.csv || fmt == ExportType.tsv)
      && s.worksheets.length > 1 then
    match filename with
    | none =>
      { opens := [], closes := [], exportCalls := 0,
        typeError := true, raisedDl := false, finalIndex := 0 }
    | some f => exportSheetsLoop fmt path f dls 0 s.worksheets
  else
    let file_name :=
      (match filename with
       | none => s.id
       | some f => f) ++ extOf fmt
    match dls 0 with
    | .completes _ =>
      { opens := [path ++ file_name], closes := [], exportCalls := 1,
        typeError := false, raisedDl := false, finalIndex := 0 }
    | .failsPartway _ =>
      { opens := [path ++ file_name], closes := [], exportCalls := 1,
        typeError := false, raisedDl := true, finalIndex := 0 }

/-! ## Lemmas about the retry loop -/

/-- If every attempt from `i` on raises a timeout-classified error, the loop
ends in `RequestError` carrying the text of the last attempt, after one
execution per remaining iteration. -/
theorem execLoop_timeout_chain {α : Type u} (request : Nat → ExecResult α)
    (e : Nat → PyExc) (n : Nat) :
    ∀ rem i attempts, i + rem = n → 1 ≤ rem →
    (∀ k, i ≤ k → k < n → request k = .exc (e k) ∧
      containsSubstr (e k).reprStr "timed out" = true) →
    execLoop request n i rem attempts =
      (.requestError ("Timeout : " ++ (e (n - 1)).reprStr), attempts + rem) := by
  intro rem
  induction rem with
  | zero => omega
  | succ m ih =>
    intro i attempts hsum _ hreq
    obtain ⟨hexc, htime⟩ := hreq i (le_refl i) (by omega)
    by_cases hm : m = 0
    · subst hm
      have hi : i = n - 1 := by omega
      subst hi
      simp [execLoop, hexc, htime]
    · have hi : ¬ i = n - 1 := by omega
      rw [execLoop, hexc]
      simp only [htime]
      rw [if_neg (by simp), if_neg hi]
      rw [ih (i + 1) (attempts + 1) (by omega) (by omega)
        (fun k hk hk2 => hreq k (by omega) hk2)]
      rw [Prod.mk.injEq]
      exact ⟨rfl, by omega⟩

/-- If every attempt from `i` up to `n - 2` raises a timeout-classified
error and attempt `n - 1` succeeds with `v`, the loop returns `some v`
after one execution per iteration actually run. -/
theorem execLoop_success_chain {α : Type u} (request : Nat → ExecResult α)
    (e : Nat → PyExc) (n : Nat) (v : α) :
    ∀ rem i attempts, i + rem = n → 1 ≤ rem →
    (∀ k, i ≤ k → k < n - 1 → request k = .exc (e k) ∧
      containsSubstr (e k).reprStr "timed out" = true) →
    request (n - 1) = .ok v →
    execLoop request n i rem attempts =
      (.returned (some v), attempts + rem) := by
  intro rem
  induction rem with
  | zero => omega
  | succ m ih =>
    intro i attempts hsum _ hreq hok
    by_cases hm : m = 0
    · subst hm
      have hi : i = n - 1 := by omega
      subst hi
      simp [execLoop, hok]
    · obtain ⟨hexc, htime⟩ := hreq i (le_refl i) (by omega)
      have hi : ¬ i = n - 1 := by omega
      rw [execLoop, hexc]
      simp only [htime]
      rw [if_neg (by simp), if_neg hi]
      rw [ih (i + 1) (attempts + 1) (by omega) (by omega)
        (fun k hk hk2 => hreq k (by omega) hk2) hok]
      rw [Prod.mk.injEq]
      exact ⟨rfl, by omega⟩

/-- Claim C1: for a request whose first `retries - 1` executions raise
timeout-classified errors and whose next execution succeeds,
`_execute_request` returns the success value after exactly `retries`
executions; for a request that always raises timeout-classified errors it
raises `RequestError` carrying the failure text after exactly `retries`
executions; for a request whose first execution raises a
non-timeout-classified error it re-raises that error after exactly one
execution. -/
theorem execute_request_retry_spec {α : Type u} (n : Nat) (hn : 1 ≤ n)
    (request : Nat → ExecResult α) (e : Nat → PyExc) (v : α) :
    ((∀ i, i < n - 1 → request i = .exc (e i) ∧
        containsSubstr (e i).reprStr "timed out" = true) →
      request (n - 1) = .ok v →
      execute_request (n : Int) request = (.returned (some v), n))
    ∧
    ((∀ i, i < n → request i = .exc (e i) ∧
        containsSubstr (e i).reprStr "timed out" = true) →
      execute_request (n : Int) request =
        (.requestError ("Timeout : " ++ (e (n - 1)).reprStr), n))
    ∧
    (request 0 = .exc (e 0) →
      containsSubstr (e 0).reprStr "timed out" = false →
      execute_request (n : Int) request = (.raised (e 0), 1)) := by
  refine ⟨?_, ?_, ?_⟩
  · intro hchain hok
    unfold execute_request
    rw [Int.toNat_natCast]
    rw [execLoop_success_chain request e n v n 0 0 (by omega) hn
      (fun k _ hk2 => hchain k hk2) hok]
    rw [Prod.mk.injEq]
    exact ⟨rfl, by omega⟩
  · intro hchain
    unfold execute_request
    rw [Int.toNat_natCast]
    rw [execLoop_timeout_chain request e n n 0 0 (by omega) hn
      (fun k _ hk2 => hchain k hk2)]
    rw [Prod.mk.injEq]
    exact ⟨rfl, by omega⟩
  · intro hexc hnotime
    unfold execute_request
    rw [Int.toNat_natCast]
    obtain ⟨m, rfl⟩ := Nat.exists_eq_add_of_le' hn
    rw [execLoop, hexc]
    simp [hnotime]

/-- Concrete instantiation of `execute_request_retry_spec` at the default
retry budget 2, exercising all three branches. -/
theorem execute_request_retry_spec_witness :
    execute_request (2 : Int)
        (fun i => if i = 0
          then ExecResult.exc ⟨"URLError: timed out", "timed out", false⟩
          else ExecResult.ok (7 : Nat)) =
      (.returned (some 7), 2)
    ∧
    execute_request (2 : Int)
        (fun _ => (ExecResult.exc
          ⟨"URLError: timed out", "timed out", false⟩ : ExecResult Nat)) =
      (.requestError ("Timeout : " ++ "URLError: timed out"), 2)
    ∧
    execute_request (2 : Int)
        (fun _ => (ExecResult.exc
          ⟨"HttpError 404", "404", true⟩ : ExecResult Nat)) =
      (.raised ⟨"HttpError 404", "404", true⟩, 1) := by
  refine ⟨?_, ?_, ?_⟩
  · exact (execute_request_retry_spec 2 (by decide) _
      (fun _ => ⟨"URLError: timed out", "timed out", false⟩) 7).1
      (by intro i hi
          have h0 : i = 0 := by omega
          subst h0
          exact ⟨rfl, by decide⟩)
      rfl
  · exact (execute_request_retry_spec 2 (by decide) _
      (fun _ => ⟨"URLError: timed out", "timed out", false⟩) 0).2.1
      (by intro i _
          exact ⟨rfl, by decide⟩)
  · exact (execute_request_retry_spec 2 (by decide) _
      (fun _ => ⟨"HttpError 404", "404", true⟩) 0).2.2 rfl (by decide)

/-- Claim C10: with a zero or negative retry budget, `_execute_request`
performs no execution at all and returns `None` without raising. -/
theorem execute_request_nonpositive_retries {α : Type u} (retries : Int)
    (h : retries ≤ 0) (request : Nat → ExecResult α) :
    execute_request retries request = (.returned none, 0) := by
  unfold execute_request
  rw [Int.toNat_of_nonpos h]
  rfl

/-- Concrete instantiation of `execute_request_nonpositive_retries` at
retry budget 0: the stub always succeeds yet no response is returned. -/
theorem execute_request_nonpositive_retries_witness :
    execute_request (0 : Int) (fun _ => ExecResult.ok (5 : Nat)) =
      (.returned none, 0) :=
  execute_request_nonpositive_retries 0 (by decide) _

/-! ## Lemmas about pagination -/

/-- The shape of the stub scenario of the pagination claim, on file-list
responses: every response carries a `nextPageToken` except the last. -/
def tokenChainB : ListResponse α → List (ListResponse α) → Bool
  | r, [] => r.nextPageToken.isNone
  | r, s :: rest => r.nextPageToken.isSome && tokenChainB s rest

/-- The last response of a nonempty response sequence. -/
def chainLast : ListResponse α → List (ListResponse α) → ListResponse α
  | r, [] => r
  | _, s :: rest => chainLast s rest

/-- The shape of the stub scenario of the pagination claim, on
permission-list responses. -/
def permTokenChainB : PermListResponse α → List (PermListResponse α) → Bool
  | r, [] => r.nextPageToken.isNone
  | r, s :: rest => r.nextPageToken.isSome && permTokenChainB s rest

/-- Under the token-chain scenario, the `while` loop of `list` consumes
every stubbed response, concatenating the pages onto the accumulator in
order and issuing one request per remaining page. -/
theorem listWhile_chain {α : Type u} (rest : List (ListResponse α)) :
    ∀ (r : ListResponse α) (acc : List α) (requests : Nat),
    tokenChainB r rest = true →
    listWhile r rest acc requests =
      some (acc ++ (rest.map ListResponse.files).flatten, chainLast r rest,
        requests + rest.length) := by
  induction rest with
  | nil =>
    intro r acc requests hchain
    simp only [tokenChainB, Option.isNone_iff_eq_none] at hchain
    simp [listWhile, hchain, chainLast]
  | cons s rest ih =>
    intro r acc requests hchain
    simp only [tokenChainB, Bool.and_eq_true] at hchain
    obtain ⟨t, ht⟩ := Option.isSome_iff_exists.mp hchain.1
    rw [listWhile, ht]
    rw [ih s (acc ++ s.files) (requests + 1) hchain.2]
    simp only [chainLast, List.map_cons, List.flatten_cons, List.append_assoc,
      List.length_cons]
    simp only [Option.some.injEq, Prod.mk.injEq]
    exact ⟨trivial, trivial, by omega⟩

/-- Under the token-chain scenario, the `while` loop of `list_permissions`
concatenates the pages onto the accumulator in order, one request per
remaining page. -/
theorem permsWhile_chain {α : Type u} (rest : List (PermListResponse α)) :
    ∀ (r : PermListResponse α) (acc : List α) (requests : Nat),
    permTokenChainB r rest = true →
    permsWhile r rest acc requests =
      some (acc ++ (rest.map PermListResponse.permissions).flatten,
        requests + rest.length) := by
  induction rest with
  | nil =>
    intro r acc requests hchain
    simp only [permTokenChainB, Option.isNone_iff_eq_none] at hchain
    simp [permsWhile, hchain]
  | cons s rest ih =>
    intro r acc requests hchain
    simp only [permTokenChainB, Bool.and_eq_true] at hchain
    obtain ⟨t, ht⟩ := Option.isSome_iff_exists.mp hchain.1
    rw [permsWhile, ht]
    rw [ih s (acc ++ s.permissions) (requests + 1) hchain.2]
    simp only [List.map_cons, List.flatten_cons, List.append_assoc,
      List.length_cons]
    simp only [Option.some.injEq, Prod.mk.injEq]
    exact ⟨trivial, by omega⟩

/-- Claim C2 (counterexample): a token-chain response sequence — first
response with a token, final response without — whose final response
reports an incomplete search, issued by a caller without a `corpora`
keyword, makes `list` raise `KeyError` instead of returning the
concatenation of the pages, refuting the unqualified pagination claim. -/
theorem list_pagination_incomplete_counterexample :
    tokenChainB (α := Nat) ⟨[1], some "tok", none⟩ [⟨[2], none, some true⟩] =
      true
    ∧ filesList (α := Nat) none
        [⟨[1], some "tok", none⟩, ⟨[2], none, some true⟩] =
      .keyError "corpora" := by
  exact ⟨rfl, rfl⟩

/-- Claim C2 (amended): when every stubbed response carries a continuation
token except the last, `list` returns the concatenation of all pages in
page order with one request per page, provided the final response does not
combine `incompleteSearch = true` with an absent `corpora` argument (in
which case the warning line raises `KeyError`; see the claim about
incomplete search), and `list_permissions` returns the concatenation of
all permission pages with one request per page unconditionally. -/
theorem list_pagination_concat {α : Type u} :
    (∀ (corpora : Option String) (r : ListResponse α)
        (rest : List (ListResponse α)),
      tokenChainB r rest = true →
      ((chainLast r rest).incompleteSearch = some true →
        corpora.isSome = true) →
      ∃ warned,
        filesList corpora (r :: rest) =
          .ok (((r :: rest).map ListResponse.files).flatten)
            (r :: rest).length warned)
    ∧
    (∀ (r : PermListResponse α) (rest : List (PermListResponse α)),
      permTokenChainB r rest = true →
      list_permissions (r :: rest) =
        some (((r :: rest).map PermListResponse.permissions).flatten,
          (r :: rest).length)) := by
  constructor
  · intro corpora r rest hchain hcorp
    by_cases hinc : (chainLast r rest).incompleteSearch = some true
    · obtain ⟨c, hc⟩ := Option.isSome_iff_exists.mp (hcorp hinc)
      refine ⟨true, ?_⟩
      simp only [filesList]
      rw [listWhile_chain rest r r.files 1 hchain]
      simp [hinc, hc, List.flatten_cons, List.length_cons, Nat.add_comm]
    · refine ⟨false, ?_⟩
      simp only [filesList]
      rw [listWhile_chain rest r r.files 1 hchain]
      simp [hinc, List.flatten_cons, List.length_cons, Nat.add_comm]
  · intro r rest hchain
    simp only [list_permissions]
    rw [permsWhile_chain rest r r.permissions 1 hchain]
    simp [List.flatten_cons, List.length_cons, Nat.add_comm]

/-- Concrete instantiation of `list_pagination_concat`: two file pages and
two permission pages, each first response carrying a token. -/
theorem list_pagination_concat_witness :
    (∃ warned,
      filesList (α := Nat) none
          [⟨[1, 2], some "tok", none⟩, ⟨[3], none, none⟩] =
        .ok [1, 2, 3] 2 warned)
    ∧
    list_permissions (α := Nat) [⟨[4], some "tok"⟩, ⟨[5, 6], none⟩] =
      some ([4, 5, 6], 2) := by
  constructor
  · exact (list_pagination_concat (α := Nat)).1 none
      ⟨[1, 2], some "tok", none⟩ [⟨[3], none, none⟩]
      (by decide) (by decide)
  · exact (list_pagination_concat (α := Nat)).2
      ⟨[4], some "tok"⟩ [⟨[5, 6], none⟩] (by decide)

/-! ## Incomplete search, permission creation, permission deletion -/

/-- Claim C4 (failing input): when the final response reports an incomplete
search and the caller supplied no `corpora` keyword, `list` raises
`KeyError` from the warning line instead of returning the collected items;
with `corpora` supplied the soft-degradation behaviour does hold. -/
theorem list_incomplete_search_key_error :
    filesList (α := Nat) none [⟨[1], none, some true⟩] = .keyError "corpora"
    ∧ filesList (α := Nat) (some "teamDrive") [⟨[1], none, some true⟩] =
        .ok [1] 1 true := by
  exact ⟨rfl, rfl⟩

/-- Claim C5 (counterexample): with grantee type `user` and neither an
email address nor a domain supplied, `create_permission` performs no
local rejection and sends a body carrying neither grantee field. -/
theorem create_permission_neither_counterexample :
    create_permission "writer" "user" {} =
      .sent { kind := "drive#permission", type := "user", role := "writer" } := by
  rfl

/-- Claim C5 (amended): every body sent by `create_permission` carries at
most one of the grantee fields, and supplying both is rejected with an
invalid-argument error before any remote call; no rejection occurs when
neither is supplied. -/
theorem create_permission_at_most_one_grantee (role type : String)
    (kwargs : PermKwargs) :
    (kwargs.emailAddress.isSome = true → kwargs.domain.isSome = true →
      create_permission role type kwargs =
        .invalidArgument
          "A permission can only use emailAddress or domain. Do not specify both.")
    ∧
    (∀ body, create_permission role type kwargs = .sent body →
      ¬(body.emailAddress.isSome = true ∧ body.domain.isSome = true)) := by
  constructor
  · intro h1 h2
    simp [create_permission, h1, h2]
  · intro body hsent
    simp only [create_permission] at hsent
    split at hsent
    · simp at hsent
    · split at hsent
      · simp at hsent
      · split at hsent
        · simp at hsent
        · split at hsent
          · split at hsent
            · cases hsent
              simp
            · simp at hsent
          · split at hsent
            · cases hsent
              simp
            · cases hsent
              simp

/-- Concrete instantiation of `create_permission_at_most_one_grantee`:
supplying both grantee fields is rejected before any remote call. -/
theorem create_permission_at_most_one_grantee_witness :
    create_permission "writer" "user"
        { emailAddress := some "a@b.com", domain := some "b.com" } =
      .invalidArgument
        "A permission can only use emailAddress or domain. Do not specify both." :=
  (create_permission_at_most_one_grantee "writer" "user"
    { emailAddress := some "a@b.com", domain := some "b.com" }).1 rfl rfl

/-- Claim C6: an email address rejected by `_EMAIL_PATTERN` makes
`create_permission` fail with an invalid-argument error before any remote
call, and an accepted email address is copied verbatim into the request
body, whose domain field stays absent. -/
theorem create_permission_email_validation (role type em : String)
    (kwargs : PermKwargs) (hmail : kwargs.emailAddress = some em) :
    (emailPatternMatch em = false →
      ∃ msg, create_permission role type kwargs = .invalidArgument msg)
    ∧
    (emailPatternMatch em = true →
      kwargs.domain = none →
      role ∈ PERMISSION_ROLES →
      type ∈ PERMISSION_TYPES →
      create_permission role type kwargs =
        .sent { kind := "drive#permission", type := type, role := role,
                emailAddress := some em, domain := none,
                allowFileDiscovery := kwargs.allowFileDiscovery,
                expirationTime := kwargs.expirationTime }) := by
  constructor
  · intro hbad
    simp only [create_permission, hmail]
    split
    · exact ⟨_, rfl⟩
    · split
      · exact ⟨_, rfl⟩
      · split
        · exact ⟨_, rfl⟩
        · rw [if_neg (by simp [hbad])]
          exact ⟨_, rfl⟩
  · intro hgood hdom hrole htype
    simp [create_permission, hmail, hdom, hrole, htype, hgood]

/-- Concrete instantiation of `create_permission_email_validation`: a
malformed address (no at-sign) is rejected; a well-formed address lands in
the body with the domain field absent. -/
theorem create_permission_email_validation_witness :
    (∃ msg, create_permission "writer" "user"
        { emailAddress := some "not-an-email" } = .invalidArgument msg)
    ∧
    create_permission "writer" "user" { emailAddress := some "a@b.com" } =
      .sent { kind := "drive#permission", type := "user", role := "writer",
              emailAddress := some "a@b.com", domain := none,
              allowFileDiscovery := none, expirationTime := none } := by
  constructor
  · exact (create_permission_email_validation "writer" "user" "not-an-email"
      { emailAddress := some "not-an-email" } rfl).1 (by decide)
  · exact (create_permission_email_validation "writer" "user" "a@b.com"
      { emailAddress := some "a@b.com" } rfl).2 (by decide) rfl
      (by simp [PERMISSION_ROLES]) (by simp [PERMISSION_TYPES])

/-- After a first execution raising a non-timeout-classified error,
`_execute_request` re-raises that error with no further attempt. -/
theorem execute_request_first_raise {α : Type u} (n : Nat) (hn : 1 ≤ n)
    (request : Nat → ExecResult α) (e : PyExc)
    (hexc : request 0 = .exc e)
    (hnotime : containsSubstr e.reprStr "timed out" = false) :
    execute_request (n : Int) request = (.raised e, 1) := by
  unfold execute_request
  rw [Int.toNat_natCast]
  obtain ⟨m, rfl⟩ := Nat.exists_eq_add_of_le' hn
  rw [execLoop, hexc]
  simp [hnotime]

/-- When every execution raises a timeout-classified error,
`_execute_request` ends in `RequestError` after `n` executions. -/
theorem execute_request_all_timeout {α : Type u} (n : Nat) (hn : 1 ≤ n)
    (request : Nat → ExecResult α) (e : Nat → PyExc)
    (hchain : ∀ i, i < n → request i = .exc (e i) ∧
      containsSubstr (e i).reprStr "timed out" = true) :
    execute_request (n : Int) request =
      (.requestError ("Timeout : " ++ (e (n - 1)).reprStr), n) := by
  unfold execute_request
  rw [Int.toNat_natCast]
  rw [execLoop_timeout_chain request e n n 0 0 (by omega) hn
    (fun k _ hk2 => hchain k hk2)]
  rw [Prod.mk.injEq]
  exact ⟨rfl, by omega⟩

/-- The exception raised by a provider stub that always times out: its
`repr` contains the timeout substring, it does not match the
owner-removal pattern, and it is an `HttpError`. -/
def timeoutHttpExc : PyExc :=
  ⟨"HttpError: The read operation timed out", "timed out", true⟩

/-- Claim C7 (counterexample): a provider that fails every attempt with a
timeout-classified `HttpError` makes `delete_permission` fail with
`RequestError`, not with the original error propagated unchanged. -/
theorem delete_permission_timeout_counterexample :
    delete_permission 2 (fun _ => ExecResult.exc timeoutHttpExc) =
      .requestError ("Timeout : " ++ "HttpError: The read operation timed out")
    ∧ DeleteOutcome.requestError
        ("Timeout : " ++ "HttpError: The read operation timed out") ≠
        .raised timeoutHttpExc := by
  exact ⟨rfl, by simp⟩

/-- Claim C7 (amended): for a provider failure that is not
timeout-classified, `delete_permission` fails with
`CannotRemoveOwnerError` exactly when the failure is an `HttpError` whose
text matches the owner-removal pattern, and otherwise propagates the
original error unchanged; a provider failing every attempt with
timeout-classified errors yields `RequestError` per the retry discipline. -/
theorem delete_permission_error_translation (n : Nat) (hn : 1 ≤ n)
    (request : Nat → ExecResult Unit) (e : Nat → PyExc) :
    (request 0 = .exc (e 0) →
      containsSubstr (e 0).reprStr "timed out" = false →
      delete_permission (n : Int) request =
        (if (e 0).isHttpError = true ∧
            containsSubstr (e 0).strStr ownerPatternText = true
         then .cannotRemoveOwner
         else .raised (e 0)))
    ∧
    ((∀ i, i < n → request i = .exc (e i) ∧
        containsSubstr (e i).reprStr "timed out" = true) →
      delete_permission (n : Int) request =
        .requestError ("Timeout : " ++ (e (n - 1)).reprStr)) := by
  constructor
  · intro hexc hnotime
    unfold delete_permission
    rw [execute_request_first_raise n hn request (e 0) hexc hnotime]
    by_cases hh : (e 0).isHttpError = true
    · by_cases hown : containsSubstr (e 0).strStr ownerPatternText = true
      · rw [if_pos ⟨hh, hown⟩]
        simp [hh, hown]
      · rw [if_neg (by tauto)]
        simp [hh, hown]
    · rw [if_neg (by tauto)]
      simp [hh]
  · intro hchain
    unfold delete_permission
    rw [execute_request_all_timeout n hn request e hchain]

/-- Concrete instantiation of `delete_permission_error_translation`: an
owner-removal `HttpError` becomes `CannotRemoveOwnerError`, a plain 404
propagates unchanged, and a persistent timeout becomes `RequestError`. -/
theorem delete_permission_error_translation_witness :
    delete_permission 2
        (fun _ => ExecResult.exc
          ⟨"HttpError 403", "The owner of a file cannot be removed.", true⟩) =
      .cannotRemoveOwner
    ∧
    delete_permission 2
        (fun _ => ExecResult.exc ⟨"HttpError 404", "404", true⟩) =
      .raised ⟨"HttpError 404", "404", true⟩
    ∧
    delete_permission 2 (fun _ => ExecResult.exc timeoutHttpExc) =
      .requestError ("Timeout : " ++ "HttpError: The read operation timed out") := by
  refine ⟨?_, ?_, ?_⟩
  · have h := (delete_permission_error_translation 2 (by decide)
      (fun _ => ExecResult.exc
        ⟨"HttpError 403", "The owner of a file cannot be removed.", true⟩)
      (fun _ =>
        ⟨"HttpError 403", "The owner of a file cannot be removed.", true⟩)).1
      rfl (by decide)
    rw [if_pos ⟨rfl, by decide⟩] at h
    exact h
  · have h := (delete_permission_error_translation 2 (by decide)
      (fun _ => ExecResult.exc ⟨"HttpError 404", "404", true⟩)
      (fun _ => ⟨"HttpError 404", "404", true⟩)).1 rfl (by decide)
    rw [if_neg (by intro hc; exact absurd hc.2 (by decide))] at h
    exact h
  · exact (delete_permission_error_translation 2 (by decide)
      (fun _ => ExecResult.exc timeoutHttpExc)
      (fun _ => timeoutHttpExc)).2 (by intro i _; exact ⟨rfl, by decide⟩)

/-! ## Export -/

/-- Claim C3 (failing input): a two-worksheet spreadsheet exported as CSV
with the filename left at its default makes `export` raise `TypeError`
from `filename + str(worksheet.index)` before any export call is issued
or any file opened. -/
theorem export_default_filename_type_error :
    exportSpreadsheet
        ⟨"ssid", [⟨"w1", 0, "ssid"⟩, ⟨"w2", 1, "ssid"⟩]⟩
        ExportType.csv "" none (fun _ => DownloadRun.completes 1) =
      { opens := [], closes := [], exportCalls := 0,
        typeError := true, raisedDl := false, finalIndex := 0 } := by
  rfl

/-- Claim C8: exporting a single worksheet whose download completes issues
exactly one export call, opens exactly one local file named by the base
filename (defaulting to the worksheet id) followed by the format
extension, and leaves the worksheet index equal to its value before the
call. -/
theorem export_worksheet_restores_index (w : Worksheet) (fmt : ExportType)
    (path : String) (filename : Option String) (chunks : Nat) :
    (exportWorksheet w fmt path filename (.completes chunks)).finalIndex =
      w.index
    ∧ (exportWorksheet w fmt path filename (.completes chunks)).opens =
        [path ++ (filename.getD w.id ++ extOf fmt)]
    ∧ (exportWorksheet w fmt path filename (.completes chunks)).exportCalls = 1
    ∧ (exportWorksheet w fmt path filename (.completes chunks)).raisedDl =
        false := by
  cases filename <;> simp [exportWorksheet]

/-- Claim C9 (failing input): the file handle opened by `export` is closed
on no path at all: the trace of close events is empty both when the
chunked download fails partway through and when it completes. -/
theorem export_never_closes_handle :
    (exportWorksheet ⟨"wid", 3, "sid"⟩ ExportType.pdf "" (some "out")
        (.failsPartway 1)).opens = ["out.pdf"]
    ∧ (exportWorksheet ⟨"wid", 3, "sid"⟩ ExportType.pdf "" (some "out")
        (.failsPartway 1)).closes = []
    ∧ (exportWorksheet ⟨"wid", 3, "sid"⟩ ExportType.pdf "" (some "out")
        (.completes 2)).closes = [] := by
  refine ⟨?_, rfl, rfl⟩
  decide

end Drive
